import Mathlib

/-!
Verification development for the emotion-MVP orchestration core of the
Portfolio repository (emotion_mvp: classifier.py, emotion_tiers.py,
api/plan_gate.py, pipeline.py).

The Python code is shallowly embedded: pure helpers become Lean functions;
remote HTTP interactions are represented by explicit outcome parameters
(the reply string of the chat backend, or an `Except` value standing for
the encoder backend's parsed response versus a raised exception); the
file system and clock are explicit arguments.  Python `str` is modelled
by `String` (ASCII case mapping and whitespace; the source only feeds
ASCII label vocabulary through the case-sensitive paths), floats by `ℚ`.
-/

/-! ## Python string helpers -/

/-- Python `\s` and `str.strip` whitespace, restricted to the ASCII range. -/
def pyIsSpace (c : Char) : Bool :=
  c = ' ' || c = '\t' || c = '\n' || c = '\r' || c = '\x0b' || c = '\x0c'

/-- Python `str.strip()`: drop leading and trailing whitespace. -/
def pyStrip (s : String) : String :=
  String.mk (((s.toList.dropWhile pyIsSpace).reverse.dropWhile pyIsSpace).reverse)

/-- Python `str.lower()` (ASCII case mapping). -/
def pyLower (s : String) : String :=
  String.mk (s.toList.map Char.toLower)

/-- ASCII letter, either case: what `[a-z]+` matches under `re.IGNORECASE`. -/
def isAsciiAlpha (c : Char) : Bool :=
  ('a' ≤ c && c ≤ 'z') || ('A' ≤ c && c ≤ 'Z')

/-! ## emotion_tiers.py -/

/-- emotion_tiers.py: the basic tier's seven fundamental emotions. -/
def BASIC_LABELS : List String :=
  ["happy", "sad", "mad", "scared", "surprised", "disgusted", "neutral"]

/-- emotion_tiers.py: the plus tier's 23 emotion categories. -/
def PLUS_LABELS : List String :=
  ["excitement", "confusion", "surprise", "neutral", "optimism", "pride",
   "curiosity", "fear", "amusement", "joy", "desire", "annoyance",
   "nervousness", "gratitude", "approval", "realization", "disappointment",
   "caring", "sadness", "admiration", "disapproval", "anger", "remorse"]

/-- emotion_tiers.py: the pro tier's 27 emotion categories. -/
def PRO_LABELS : List String :=
  ["excitement", "confusion", "surprise", "neutral", "optimism", "pride",
   "curiosity", "fear", "amusement", "joy", "desire", "annoyance",
   "nervousness", "gratitude", "approval", "realization", "disappointment",
   "caring", "sadness", "admiration", "disapproval", "anger", "remorse",
   "relief", "love", "disgust", "embarrassment"]

/-- emotion_tiers.py: `EMOTION_TIERS`, the tier-name-to-vocabulary table. -/
def EMOTION_TIERS (tier : String) : List String :=
  if tier = "basic" then BASIC_LABELS
  else if tier = "plus" then PLUS_LABELS
  else if tier = "pro" then PRO_LABELS
  else []

/-- classifier.py: the tier expression repeated in both LLaMA entry points,
`"pro" if do_intensity else ("plus" if classify_ext else "basic")`. -/
def tierFor (classify_ext do_intensity : Bool) : String :=
  if do_intensity then "pro" else if classify_ext then "plus" else "basic"

/-! ## classifier.py: reply parsing

`re.search(r"Answer:\s*([a-z]+)", text, re.IGNORECASE)` is embedded as a
leftmost scan: at each position try to match the keyword case-insensitively,
then skip whitespace, then take one or more ASCII letters (the capture). -/

/-- Try to match `kw` (given in lowercase) case-insensitively at the head of
`cs`, then `\s*`, then capture `[a-z]+` (with `re.IGNORECASE`, both cases). -/
def matchKeywordAt (kw : List Char) (cs : List Char) : Option (List Char) :=
  match kw, cs with
  | [], rest =>
      let letters := (rest.dropWhile pyIsSpace).takeWhile isAsciiAlpha
      if letters.isEmpty then none else some letters
  | _ :: _, [] => none
  | k :: ks, c :: rest => if c.toLower = k then matchKeywordAt ks rest else none

/-- Leftmost search for the keyword pattern, as `re.search` does. -/
def searchKeyword (kw : List Char) : List Char → Option (List Char)
  | [] => matchKeywordAt kw []
  | c :: rest =>
    match matchKeywordAt kw (c :: rest) with
    | some letters => some letters
    | none => searchKeyword kw rest

/-- classifier.py `_extract_emotion`: the captured group lowercased if the
`Answer:` pattern is found, otherwise the stripped, lowercased text. -/
def _extract_emotion (text : String) : String :=
  match searchKeyword "answer:".toList text.toList with
  | some letters => String.mk (letters.map Char.toLower)
  | none => pyLower (pyStrip text)

/-- classifier.py: the ordinal intensity-word table repeated in both LLaMA
entry points (`mapping`). -/
def INTENSITY_WORD_TABLE : List (String × ℚ) :=
  [("neutral", 0), ("mild", 1/4), ("moderate", 1/2), ("strong", 3/4),
   ("intense", 1)]

/-- classifier.py: the `Intensity:` parse shared by both LLaMA entry points:
`None` when the pattern is absent, else the table value with default `0.0`. -/
def parseIntensity (content : String) : Option ℚ :=
  match searchKeyword "intensity:".toList content.toList with
  | some w => some ((List.lookup (String.mk (w.map Char.toLower))
      INTENSITY_WORD_TABLE).getD 0)
  | none => none

/-- classifier.py `predict_emotion_llama`.  The chat backend's reply is the
explicit `content` argument (in the source it is produced by `_call_llama`,
which either returns the reply string or raises; the raising case is
modelled at the call site in the pipeline). -/
def predict_emotion_llama (content : String) (classify_ext do_intensity : Bool) :
    String × Option ℚ :=
  let allowed := EMOTION_TIERS (tierFor classify_ext do_intensity)
  let emo0 := _extract_emotion content
  let emo := if emo0 ∈ allowed then emo0 else "neutral"
  let intensity := if do_intensity then parseIntensity content else none
  (emo, intensity)

/-- classifier.py `review_emotion_llama`.  As above, `content` is the chat
backend's reply; `predicted` is the prior prediction the function falls
back to (the `sentence` and `actual` arguments only shape the prompt sent
to the backend, so they do not appear in the embedded result). -/
def review_emotion_llama (content : String) (predicted : String)
    (classify_ext do_intensity : Bool) : String × Option ℚ :=
  let allowed := EMOTION_TIERS (tierFor classify_ext do_intensity)
  let emo0 := _extract_emotion content
  let emo := if emo0 ∈ allowed then emo0 else predicted
  let intensity := if do_intensity then parseIntensity content else none
  (emo, intensity)

/-! ## classifier.py: the BERT adapter -/

/-- classifier.py `_LABEL_MAP`: class index to 28-class label. -/
def _LABEL_MAP : List (Int × String) :=
  [(0, "admiration"), (1, "amusement"), (2, "anger"), (3, "annoyance"),
   (4, "approval"), (5, "caring"), (6, "confusion"), (7, "curiosity"),
   (8, "desire"), (9, "disappointment"), (10, "disapproval"), (11, "disgust"),
   (12, "embarrassment"), (13, "excitement"), (14, "fear"), (15, "gratitude"),
   (16, "grief"), (17, "joy"), (18, "love"), (19, "nervousness"),
   (20, "optimism"), (21, "pride"), (22, "realization"), (23, "relief"),
   (24, "remorse"), (25, "sadness"), (26, "surprise"), (27, "neutral")]

/-- classifier.py `_BASIC_MAP`: collapse of each 28-class label into one of
the seven coarse buckets. -/
def _BASIC_MAP : List (String × String) :=
  [("admiration", "happy"), ("amusement", "happy"), ("anger", "mad"),
   ("annoyance", "mad"), ("approval", "happy"), ("caring", "happy"),
   ("confusion", "neutral"), ("curiosity", "neutral"), ("desire", "happy"),
   ("disappointment", "sad"), ("disapproval", "mad"), ("disgust", "disgust"),
   ("embarrassment", "sad"), ("excitement", "happy"), ("fear", "scared"),
   ("gratitude", "happy"), ("grief", "sad"), ("joy", "happy"),
   ("love", "happy"), ("nervousness", "scared"), ("optimism", "happy"),
   ("pride", "happy"), ("realization", "surprised"), ("relief", "happy"),
   ("remorse", "sad"), ("sadness", "sad"), ("surprise", "surprised"),
   ("neutral", "neutral")]

/-- classifier.py `predict_emotion_bert`.  The whole try-block interaction
with the remote endpoint (HTTP POST, status check, JSON decoding, and the
`int(...)` coercion of the prediction field) is represented by its outcome:
`.ok idx` when every step succeeds yielding class index `idx`, `.error ()`
when any step raises.  The except-branch returns the sentinel pair. -/
def predict_emotion_bert (remote : Except Unit Int)
    (classify_ext do_intensity : Bool) : String × Option ℚ :=
  match remote with
  | .error _ => ("nan", none)
  | .ok idx =>
    let label := (List.lookup idx _LABEL_MAP).getD "nan"
    let label :=
      if !classify_ext && !do_intensity then
        (List.lookup label _BASIC_MAP).getD "neutral"
      else label
    (label, none)

/-! ## pipeline.py: intensity-label thresholds (lines 419-430) -/

/-- pipeline.py: the threshold chain deriving the intensity label from the
score; `""` when the score is absent (matching `label = ""` before the
`score is not None` guard). -/
def intensityLabel (score : Option ℚ) : String :=
  match score with
  | none => ""
  | some s =>
    if s < 0.15 then "neutral"
    else if s < 0.4 then "mild"
    else if s < 0.7 then "moderate"
    else if s < 0.9 then "strong"
    else "intense"

/-! ## api/plan_gate.py -/

/-- plan_gate.py: the `Plan` enumeration. -/
inductive Plan
  | basic
  | plus
  | pro
deriving DecidableEq

/-- plan_gate.py: `plan.value`, the string value of the enum member. -/
def Plan.value : Plan → String
  | .basic => "basic"
  | .plus => "plus"
  | .pro => "pro"

/-- One entry of the plan_gate.py `RULES` table. -/
structure Rule where
  max_seconds : Int
  model : String
  translate : Bool
  classify : Bool
  classify_ext : Bool
  intensity : Bool

/-- plan_gate.py `RULES`: the per-plan policy table. -/
def RULES : Plan → Rule
  | .basic => ⟨10 * 60, "tiny", true, true, false, false⟩
  | .plus => ⟨45 * 60, "medium", true, true, true, false⟩
  | .pro => ⟨4 * 60 * 60, "turbo", true, true, true, true⟩

/-- Python `str.capitalize()`: first character uppercased, rest lowercased. -/
def pyCapitalize (s : String) : String :=
  match s.toList with
  | [] => ""
  | c :: rest => String.mk (c.toUpper :: rest.map Char.toLower)

/-- The client request body as far as `enforce` inspects it: the `src` and
optional `duration_sec` and `classifier` keys, plus the four client-supplied
feature toggles that `enforce` pops and discards. -/
structure Payload where
  src : String
  duration_sec : Option Int
  classifier : Option String
  translate : Option Bool
  classify : Option Bool
  classify_ext : Option Bool
  intensity : Option Bool
deriving DecidableEq

/-- The FastAPI `HTTPException` raised by `enforce` (the spec's
`QuotaExceeded`): a status code and a human-readable detail message. -/
structure HTTPException where
  status_code : Nat
  detail : String
deriving DecidableEq

/-- The dict `enforce` hands to the pipeline: the normalized request. -/
structure NormalizedPayload where
  inp : String
  model : String
  do_translate : Bool
  do_classify : Bool
  do_classify_ext : Bool
  do_intensity : Bool
  classifier_model : String
  duration_sec : Option Int
deriving DecidableEq

/-- plan_gate.py `enforce`: pops the untrusted toggles, reads the classifier
preference (default `"llama"`), rejects with a 403 when a supplied duration
exceeds the plan cap, and otherwise substitutes the plan's feature flags.
The raised `HTTPException` is modelled as the `Except.error` branch. -/
def enforce (payload : Payload) (plan : Plan) : Except HTTPException NormalizedPayload :=
  let rule := RULES plan
  let classifier_choice := payload.classifier.getD "llama"
  let ok : NormalizedPayload :=
    ⟨payload.src, rule.model, rule.translate, rule.classify, rule.classify_ext,
     rule.intensity, pyLower classifier_choice, payload.duration_sec⟩
  match payload.duration_sec with
  | some d =>
    if d > rule.max_seconds then
      .error ⟨403, pyCapitalize plan.value ++ " plan limited to "
        ++ toString (rule.max_seconds / 60) ++ "-minute audio"⟩
    else .ok ok
  | none => .ok ok

/-- Whether an `enforce` outcome is the raised-exception branch. -/
def enforceRejected (r : Except HTTPException NormalizedPayload) : Bool :=
  match r with
  | .error _ => true
  | .ok _ => false

/-! ## pipeline.py: timestamps and text-file segmentation -/

/-- pipeline.py: one transcription segment (`{"start": .., "end": .., "text": ..}`;
the `end` key is rendered `stop` because `end` is a Lean keyword). -/
structure Segment where
  start : ℚ
  stop : ℚ
  text : String
deriving DecidableEq

/-- Zero-pad the decimal rendering of a nonnegative integer to width `w`,
as Python's `{n:02}` / `{n:03}` format specifiers do. -/
def padZero (w : Nat) (n : Int) : String :=
  let s := toString n
  if s.length < w then String.mk (List.replicate (w - s.length) '0' ++ s.toList)
  else s

/-- The whole-microsecond value `timedelta(seconds=ts)` stores: the
half-microsecond tie, which Python breaks to even, is rounded up here —
unreachable for the values the pipeline produces. -/
def ratMicros (ts : ℚ) : Int :=
  (ts * 1000000 + 1/2).floor

/-- Format a microsecond count as `HH:MM:SS,mmm`: `td.seconds` and
`td.microseconds` recovered as the within-day second count and the
sub-second microseconds, then the source's `divmod` chain. -/
def fmtMicros (us : Int) : String :=
  let secs : Int := us % 86400000000 / 1000000
  let ms : Int := us % 1000000 / 1000
  let h := secs / 3600
  let rem := secs % 3600
  let m := rem / 60
  let s := rem % 60
  padZero 2 h ++ ":" ++ padZero 2 m ++ ":" ++ padZero 2 s ++ "," ++ padZero 3 ms

/-- pipeline.py `_fmt`: seconds to an `HH:MM:SS,mmm` timestamp, via the
`timedelta(seconds=ts)` decomposition embedded over `ℚ`. -/
def _fmt (ts : ℚ) : String :=
  fmtMicros (ratMicros ts)

/-- The character class `[.!?]` of pipeline.py line 340. -/
def termChar (c : Char) : Bool :=
  c = '.' || c = '!' || c = '?'

/-- `re.search(r"[.!?]$", ...)` on the reversed character list: the last
character is terminal punctuation, or (because `$` also matches before a
final newline) a final newline is preceded by one. -/
def endsTerminalRev : List Char → Bool
  | [] => false
  | c :: rest => termChar c || (c = '\n' && ((rest.head?.map termChar).getD false))

/-- pipeline.py line 340, the test `re.search(r"[.!?]$", s)`. -/
def endsTerminal (s : String) : Bool :=
  endsTerminalRev s.toList.reverse

/-- pipeline.py line 340: `s if re.search(r"[.!?]$", s) else s + "."`. -/
def forceTerminal (s : String) : String :=
  if endsTerminal s then s else s ++ "."

/-- Python `str.splitlines`, with the line boundaries the repository's data
uses: `\n`, `\r\n` and `\r` (a trailing boundary opens no empty final line). -/
def splitlinesAux : List Char → List Char → List String
  | [], acc => if acc.isEmpty then [] else [String.mk acc.reverse]
  | '\r' :: '\n' :: rest, acc => String.mk acc.reverse :: splitlinesAux rest []
  | '\r' :: rest, acc => String.mk acc.reverse :: splitlinesAux rest []
  | '\n' :: rest, acc => String.mk acc.reverse :: splitlinesAux rest []
  | c :: rest, acc => splitlinesAux rest (c :: acc)

/-- Python `str.splitlines`. -/
def splitlines (s : String) : List String :=
  splitlinesAux s.toList []

/-- One line through `csv.reader`'s field splitting: fields separated by
commas, a double quote toggling the quoted state (and being dropped), commas
inside quotes literal.  Escaped quotes and fields spanning lines — absent
from the repository's data — are not modelled. -/
def csvSplitAux : List Char → Bool → List Char → List String → List String
  | [], _, acc, out => out ++ [String.mk acc.reverse]
  | '"' :: rest, inQ, acc, out => csvSplitAux rest (!inQ) acc out
  | ',' :: rest, false, acc, out =>
      csvSplitAux rest false [] (out ++ [String.mk acc.reverse])
  | c :: rest, inQ, acc, out => csvSplitAux rest inQ (c :: acc) out

/-- pipeline.py lines 329-330: the `csv.reader` view of the file content —
one row per line, a blank line yielding the empty row. -/
def csvParse (content : String) : List (List String) :=
  (splitlines content).map fun line =>
    if line = "" then [] else csvSplitAux line.toList false [] []

/-- pipeline.py line 326 (the `.txt` branch): the stripped non-empty lines
of the stripped raw content. -/
def txtSentences (raw : String) : List String :=
  (splitlines raw).filterMap fun s =>
    let t := pyStrip s
    if t = "" then none else some t

/-- pipeline.py lines 328-334 (the `.csv` branch): the header row is
skipped, then the stripped first column of each row with a non-empty
stripped first column. -/
def csvSentences (content : String) : List String :=
  match csvParse content with
  | [] => []
  | _header :: rest =>
    rest.filterMap fun row =>
      match row with
      | [] => none
      | c :: _ =>
        let t := pyStrip c
        if t = "" then none else some t

/-- pipeline.py lines 319-341, the text-file branch of `predict_any`: the
sentence list (per extension), the raw-content fallback when it is empty but
the stripped content is not, the terminal-punctuation pass, and the
zero-timestamped segments.  `content` is what `path.read_text` returns. -/
def buildTextSegments (isCsv : Bool) (content : String) : List Segment :=
  let raw := pyStrip content
  let sentences := if isCsv then csvSentences content else txtSentences raw
  let sentences := if sentences = [] ∧ raw ≠ "" then [raw] else sentences
  (sentences.map forceTerminal).map fun s => ⟨0, 0, s⟩

/-! ## pipeline.py: the classification loop (lines 381-435) -/

/-- What the loop body did for one segment: whether Adapter A
(`predict_emotion_llama`) was invoked, whether Adapter B
(`predict_emotion_bert`) produced the label, and the resulting
emotion/score pair. -/
structure ClassEvent where
  attemptedA : Bool
  usedB : Bool
  emo : String
  score : Option ℚ
deriving DecidableEq

/-- pipeline.py lines 392-417, one iteration of the classification branch.
`A i t` is the outcome of `predict_emotion_llama` on the `i`-th segment's
translation `t` (`.error` when it raises), `B i t` the (total) result of
`predict_emotion_bert`; `ub` is the `use_bert` sticky flag.  Returns the
event and the updated flag. -/
def stepClassify (A : Nat → String → Except Unit (String × Option ℚ))
    (B : Nat → String → String × Option ℚ)
    (do_classify do_classify_ext do_intensity : Bool)
    (i : Nat) (ub : Bool) (t : String) : ClassEvent × Bool :=
  if do_classify then
    if !do_classify_ext && !do_intensity then
      let p := B i t
      (⟨false, true, p.1, p.2⟩, ub)
    else if !ub then
      match A i t with
      | .ok r => (⟨true, false, r.1, r.2⟩, false)
      | .error _ =>
        let p := B i t
        (⟨true, true, p.1, p.2⟩, true)
    else
      let p := B i t
      (⟨false, true, p.1, p.2⟩, true)
  else (⟨false, false, "nan", none⟩, ub)

/-- The classification decisions of pipeline.py's per-segment loop over a
list of translations, threading the `use_bert` flag (initially `false` at
line 381). -/
def classifySegments (A : Nat → String → Except Unit (String × Option ℚ))
    (B : Nat → String → String × Option ℚ)
    (do_classify do_classify_ext do_intensity : Bool) :
    Nat → Bool → List String → List ClassEvent
  | _, _, [] => []
  | i, ub, t :: ts =>
    let p := stepClassify A B do_classify do_classify_ext do_intensity i ub t
    p.1 :: classifySegments A B do_classify do_classify_ext do_intensity (i + 1) p.2 ts

/-- Modelled from the spec's words (§4.3 classifier-selection policy, cheap
path): every segment classified by Adapter B, Adapter A never invoked.
Stated for comparison with `classifySegments`. -/
def cheapRun (B : Nat → String → String × Option ℚ) :
    Nat → List String → List ClassEvent
  | _, [] => []
  | i, t :: ts => ⟨false, true, (B i t).1, (B i t).2⟩ :: cheapRun B (i + 1) ts

/-- Modelled from the spec's words (§4.3 classifier-selection policy, sticky
fallback): Adapter A classifies each segment until its first failure; the
failing segment and every later one are classified by Adapter B, and Adapter
A is never invoked again.  Stated for comparison with `classifySegments`. -/
def stickyRun (A : Nat → String → Except Unit (String × Option ℚ))
    (B : Nat → String → String × Option ℚ) :
    Nat → List String → List ClassEvent
  | _, [] => []
  | i, t :: ts =>
    match A i t with
    | .ok r => ⟨true, false, r.1, r.2⟩ :: stickyRun A B (i + 1) ts
    | .error _ => ⟨true, true, (B i t).1, (B i t).2⟩ :: cheapRun B (i + 1) ts

/-- Python `f"{score:.2f}"` for the nonnegative scores the pipeline
produces: two decimal places (ties at the half-cent, unreachable for the
quarter-valued scores, round up here where Python rounds to even). -/
def formatScore2 (s : ℚ) : String :=
  let cents : Int := (s * 100 + 1/2).floor
  toString (cents / 100) ++ "." ++ padZero 2 (cents % 100)

/-- pipeline.py line 374-376: the artifact header. -/
def headersFor (do_intensity : Bool) : List String :=
  ["start", "end", "sentence", "translation", "emotion"]
    ++ if do_intensity then ["intensity_score", "intensity_label"] else []

/-- pipeline.py lines 386-435: the data rows of the artifact, one per
segment in order — timestamps, sentence, translation (the translator is the
explicit `trF`, applied exactly when translation is on and the detected
language is not English), the classification via `stepClassify`, and the
intensity columns when enabled. -/
def pipeRows (A : Nat → String → Except Unit (String × Option ℚ))
    (B : Nat → String → String × Option ℚ) (trF : String → String)
    (lang : String) (do_translate do_classify do_classify_ext do_intensity : Bool) :
    Nat → Bool → List Segment → List (List String)
  | _, _, [] => []
  | i, ub, seg :: rest =>
    let st := _fmt seg.start
    let et := _fmt seg.stop
    let txt := seg.text
    let translation := if do_translate ∧ lang ≠ "en" then trF txt else txt
    let p := stepClassify A B do_classify do_classify_ext do_intensity i ub translation
    let labelStr := if do_intensity then intensityLabel p.1.score else ""
    let scoreStr := match p.1.score with | some s => formatScore2 s | none => ""
    (st :: et :: txt :: translation :: p.1.emo ::
        (if do_intensity then [scoreStr, labelStr] else []))
      :: pipeRows A B trF lang do_translate do_classify do_classify_ext
          do_intensity (i + 1) p.2 rest

/-- The full tabular artifact: header row then data rows (`use_bert`
initially `false`). -/
def pipelineRows (A : Nat → String → Except Unit (String × Option ℚ))
    (B : Nat → String → String × Option ℚ) (trF : String → String)
    (lang : String) (do_translate do_classify do_classify_ext do_intensity : Bool)
    (segments : List Segment) : List (List String) :=
  headersFor do_intensity
    :: pipeRows A B trF lang do_translate do_classify do_classify_ext
        do_intensity 0 false segments

/-! ## pipeline.py `_make_safe_stem` (lines 94-123)

`urllib.parse.urlparse` / `parse_qs` and `pathlib.Path.stem` are embedded
for the fragments of their behaviour the function exercises: query and path
extraction from an `http(s)` URL, `&`-separated `key=value` pairs with
`+`/percent decoding and blank values dropped, and POSIX stem semantics
(final component after dropping empty and `.` components, minus a suffix
that is neither leading nor trailing). -/

/-- Characters the `re.sub(r"[^0-9A-Za-z_-]", "_", name)` pattern keeps. -/
def stemAllowedChar (c : Char) : Bool :=
  ('0' ≤ c && c ≤ '9') || ('A' ≤ c && c ≤ 'Z') || ('a' ≤ c && c ≤ 'z')
    || c = '_' || c = '-'

/-- The `re.sub` sanitization: every disallowed character becomes `_`. -/
def sanitizeStem (s : String) : String :=
  String.mk (s.toList.map fun c => if stemAllowedChar c then c else '_')

/-- pipeline.py line 123, `re.sub(...) or "input"`: the sanitized name, or
the placeholder when it is empty. -/
def sanitizeOrInput (s : String) : String :=
  let t := sanitizeStem s
  if t = "" then "input" else t

/-- The numeric value of a hexadecimal digit character. -/
def hexVal (c : Char) : Nat :=
  if c.isDigit then c.toNat - '0'.toNat
  else if 'a' ≤ c && c ≤ 'f' then c.toNat - 'a'.toNat + 10
  else if 'A' ≤ c && c ≤ 'F' then c.toNat - 'A'.toNat + 10
  else 0

/-- `urllib.parse.unquote_plus` on ASCII data: `+` to space, `%hh` decoded
(multi-byte UTF-8 percent sequences are not recombined), a malformed `%`
left as-is. -/
def unquotePlus : List Char → List Char
  | [] => []
  | '+' :: rest => ' ' :: unquotePlus rest
  | '%' :: a :: b :: rest =>
    if a.isDigit || ('a' ≤ a && a ≤ 'f') || ('A' ≤ a && a ≤ 'F') then
      if b.isDigit || ('a' ≤ b && b ≤ 'f') || ('A' ≤ b && b ≤ 'F') then
        Char.ofNat (16 * hexVal a + hexVal b) :: unquotePlus rest
      else '%' :: unquotePlus (a :: b :: rest)
    else '%' :: unquotePlus (a :: b :: rest)
  | c :: rest => c :: unquotePlus rest

/-- Split a character list on a separator character (Python `str.split`). -/
def splitOnChar (sep : Char) : List Char → List (List Char)
  | [] => [[]]
  | x :: xs =>
    if x = sep then [] :: splitOnChar sep xs
    else
      match splitOnChar sep xs with
      | r :: rs => (x :: r) :: rs
      | [] => [[x]]

/-- `parse_qs(query)["v"][0]` under the check `"v" in qs and qs["v"]`:
the decoded value of the first `&`-separated chunk whose decoded key is `v`
and whose value part is non-empty (`keep_blank_values` is false, so chunks
without `=` or with an empty value are dropped). -/
def parseQsV (query : String) : Option String :=
  ((splitOnChar '&' query.toList).filterMap fun chunk =>
    let name := chunk.takeWhile (· ≠ '=')
    match chunk.dropWhile (· ≠ '=') with
    | [] => none
    | _ :: value =>
      if value = [] then none
      else if String.mk (unquotePlus name) = "v" then
        some (String.mk (unquotePlus value))
      else none).head?

/-- `urlparse(inp).query`: the text after the first `?` of the pre-fragment
part (empty when there is no `?`). -/
def urlQuery (inp : String) : String :=
  let beforeFrag := inp.toList.takeWhile (· ≠ '#')
  match beforeFrag.dropWhile (· ≠ '?') with
  | [] => ""
  | _ :: q => String.mk q

/-- Whether `pre` heads the character list `cs` (Python `str.startswith`
for one candidate). -/
def leadsWith : List Char → List Char → Bool
  | [], _ => true
  | _ :: _, [] => false
  | a :: as, b :: bs => a = b && leadsWith as bs

/-- `inp.startswith(("http://", "https://"))`, the URL test of
`_make_safe_stem` (and of `_is_audio`). -/
def isHttpUrl (inp : String) : Bool :=
  leadsWith "http://".toList inp.toList || leadsWith "https://".toList inp.toList

/-- `urlparse(inp).path` for an `http(s)` URL: after the scheme, the netloc
runs to the first `/`, and the path from there to `?` or `#`. -/
def urlPath (inp : String) : String :=
  let beforeFrag := inp.toList.takeWhile (· ≠ '#')
  let beforeQ := beforeFrag.takeWhile (· ≠ '?')
  let afterScheme :=
    if leadsWith "https://".toList inp.toList then beforeQ.drop 8 else beforeQ.drop 7
  String.mk (afterScheme.dropWhile (· ≠ '/'))

/-- `Path(s).name` (POSIX): the last component after dropping empty and
single-dot components. -/
def pathName (s : String) : String :=
  ((((splitOnChar '/' s.toList).map String.mk).filter
      fun comp => comp ≠ "" && comp ≠ ".").getLast?).getD ""

/-- `Path(s).stem`: the name minus its suffix, the suffix being the text
from the last dot when that dot is neither the first nor the last
character of the name. -/
def pathStem (s : String) : String :=
  let name := pathName s
  let cs := name.toList
  match cs.reverse.findIdx? (· = '.') with
  | none => name
  | some j =>
    let i := cs.length - 1 - j
    if 0 < i ∧ i < cs.length - 1 then String.mk (cs.take i) else name

/-- pipeline.py `_make_safe_stem`: for an `http(s)` URL carrying a `v`
query parameter, that parameter's first value, returned as-is; otherwise
the path stem (of the URL path, or of the input itself), sanitized, with
the empty result replaced by `"input"`. -/
def _make_safe_stem (inp : String) : String :=
  if isHttpUrl inp then
    match parseQsV (urlQuery inp) with
    | some v => v
    | none => sanitizeOrInput (pathStem (urlPath inp))
  else sanitizeOrInput (pathStem inp)

/-! ## pipeline.py `predict_any`, text-file path (lines 212-451) -/

/-- pipeline.py lines 439-446: the summary record. -/
structure Summary where
  timestamp : String
  input : String
  language : String
  csv : String
deriving DecidableEq

/-- pipeline.py `predict_any` on a text-file input: language detection on
the stripped content, segmentation, artifact naming from the sanitized
stem, the classification loop, and the summary.  The clock
(`datetime.now`), the file content, the language detector, the translator,
the two classifier adapters, and the transcript directory (the
`TRANSCRIPT_DIR` environment variable, default `data/transcripts`) are
explicit arguments.  `model` (the Whisper size) and `classifier_model`
(the client's classifier preference) are accepted exactly as the source
accepts them: `model` only reaches the transcriber (unused on this path)
and `classifier_model` is only logged. -/
def predict_any_model (inp content : String) (isCsv : Bool) (model : String)
    (do_translate do_classify do_classify_ext do_intensity : Bool)
    (classifier_model : String)
    (A : Nat → String → Except Unit (String × Option ℚ))
    (B : Nat → String → String × Option ℚ)
    (trF : String → String) (detectF : String → String)
    (transcript_dir now : String) : Summary × List (List String) :=
  let raw := pyStrip content
  let src_lang := detectF raw
  let segments := buildTextSegments isCsv content
  let stem := _make_safe_stem inp
  let csv_path := transcript_dir ++ "/" ++ stem ++ "_emotion.csv"
  let rows := pipelineRows A B trF src_lang do_translate do_classify
      do_classify_ext do_intensity segments
  (⟨now, inp, src_lang, csv_path⟩, rows)

/-! ## Theorems -/

/-- C1: the claimed invariant fails in the code.  When the basic tier is
selected, `predict_emotion_bert` on class index 11 maps the 28-class label
`"disgust"` through `_BASIC_MAP` to `"disgust"` itself, which is not a
member of the basic vocabulary (`EMOTION_TIERS "basic"` contains
`"disgusted"`, not `"disgust"`), and is not a defined fallback either. -/
theorem claim1_basic_collapse_escapes_vocabulary :
    predict_emotion_bert (.ok 11) false false = ("disgust", none)
    ∧ (List.lookup (11 : Int) _LABEL_MAP).getD "nan" = "disgust"
    ∧ "disgust" ∉ EMOTION_TIERS "basic"
    ∧ "disgust" ∉ BASIC_LABELS
    ∧ "disgusted" ∈ BASIC_LABELS
    ∧ "disgust" ≠ "neutral" := by
  refine ⟨rfl, rfl, ?_, ?_, ?_, ?_⟩ <;> decide

/-- C3: `enforce` raises (the spec's `QuotaExceeded`, realized as a 403
`HTTPException`) exactly when a supplied duration strictly exceeds the
plan's cap; the caps are 600 / 2700 / 14400 seconds; the cap itself is
allowed and cap + 1 rejected; and duration 601 on plan basic yields the
message `"Basic plan limited to 10-minute audio"`. -/
theorem claim3_quota_enforcement (p : Payload) (plan : Plan) :
    (enforceRejected (enforce p plan) = true ↔
      ∃ d, p.duration_sec = some d ∧ d > (RULES plan).max_seconds)
    ∧ (RULES Plan.basic).max_seconds = 600
    ∧ (RULES Plan.plus).max_seconds = 2700
    ∧ (RULES Plan.pro).max_seconds = 14400
    ∧ enforceRejected
        (enforce { p with duration_sec := some (RULES plan).max_seconds } plan) = false
    ∧ enforceRejected
        (enforce { p with duration_sec := some ((RULES plan).max_seconds + 1) } plan) = true
    ∧ enforce { p with duration_sec := some 601 } Plan.basic =
        .error ⟨403, "Basic plan limited to 10-minute audio"⟩ := by
  refine ⟨?_, rfl, rfl, rfl, ?_, ?_, ?_⟩
  · rcases h : p.duration_sec with _ | d <;> simp [enforce, enforceRejected, h]
    by_cases hd : d > (RULES plan).max_seconds <;> simp [hd]
  · simp [enforce, enforceRejected]
  · simp [enforce, enforceRejected]
  · rfl

/-- C3 witness: on plan basic, duration 601 is rejected and duration 600
is allowed. -/
theorem claim3_quota_enforcement_witness :
    enforceRejected
      (enforce ⟨"a.wav", some 601, none, none, none, none, none⟩ Plan.basic) = true
    ∧ enforceRejected
      (enforce ⟨"a.wav", some 600, none, none, none, none, none⟩ Plan.basic) = false := by
  constructor
  · exact (claim3_quota_enforcement
      ⟨"a.wav", some 601, none, none, none, none, none⟩ Plan.basic).1.mpr
      ⟨601, rfl, by decide⟩
  · exact (claim3_quota_enforcement
      ⟨"a.wav", some 600, none, none, none, none, none⟩ Plan.basic).2.2.2.2.1

/-- C4: Adapter A's result label is the parsed label when that is in the
requested tier's vocabulary; otherwise `"neutral"` for the first pass and
the prior prediction for the review pass — and so is always a vocabulary
member (first pass) or a vocabulary member or the prior prediction
(review pass), never an arbitrary string. -/
theorem claim4_llama_vocab_or_fallback (content predicted : String)
    (classify_ext do_intensity : Bool) :
    ((predict_emotion_llama content classify_ext do_intensity).1 =
      if _extract_emotion content ∈ EMOTION_TIERS (tierFor classify_ext do_intensity)
      then _extract_emotion content else "neutral")
    ∧ (predict_emotion_llama content classify_ext do_intensity).1 ∈
        EMOTION_TIERS (tierFor classify_ext do_intensity)
    ∧ ((review_emotion_llama content predicted classify_ext do_intensity).1 =
      if _extract_emotion content ∈ EMOTION_TIERS (tierFor classify_ext do_intensity)
      then _extract_emotion content else predicted)
    ∧ ((review_emotion_llama content predicted classify_ext do_intensity).1 ∈
        EMOTION_TIERS (tierFor classify_ext do_intensity)
      ∨ (review_emotion_llama content predicted classify_ext do_intensity).1 = predicted) := by
  refine ⟨rfl, ?_, rfl, ?_⟩
  · by_cases h : _extract_emotion content ∈
        EMOTION_TIERS (tierFor classify_ext do_intensity)
    · simpa [predict_emotion_llama, h] using h
    · simp only [predict_emotion_llama, if_neg h]
      cases classify_ext <;> cases do_intensity <;> decide
  · by_cases h : _extract_emotion content ∈
        EMOTION_TIERS (tierFor classify_ext do_intensity)
    · exact Or.inl (by simpa [review_emotion_llama, h] using h)
    · exact Or.inr (by simp [review_emotion_llama, h])

/-- C4 witness: a reply whose parsed label is in the plus vocabulary is
kept; a reply parsing outside it falls back to the prior prediction. -/
theorem claim4_llama_vocab_or_fallback_witness :
    (predict_emotion_llama "Answer: sadness" true false).1 = "sadness"
    ∧ (review_emotion_llama "Answer: xyzzy" "joy" true false).1 = "joy" := by
  constructor
  · rw [(claim4_llama_vocab_or_fallback "Answer: sadness" "x" true false).1]
    decide
  · rw [(claim4_llama_vocab_or_fallback "Answer: xyzzy" "joy" true false).2.2.1]
    decide

/-- C5: `predict_emotion_bert` is total over every remote outcome (the
embedding of the try/except body), returns exactly `("nan", none)` when the
remote interaction fails, and its intensity component is `none` in all
cases. -/
theorem claim5_bert_never_raises (remote : Except Unit Int)
    (classify_ext do_intensity : Bool) :
    (predict_emotion_bert remote classify_ext do_intensity).2 = none
    ∧ (remote = .error () →
        predict_emotion_bert remote classify_ext do_intensity = ("nan", none)) := by
  constructor
  · cases remote <;> rfl
  · rintro rfl
    rfl

/-- C5 witness: the failure outcome yields the sentinel pair, and a
successful outcome still carries no intensity. -/
theorem claim5_bert_never_raises_witness :
    predict_emotion_bert (.error ()) true true = ("nan", none)
    ∧ (predict_emotion_bert (.ok 17) true false).2 = none :=
  ⟨(claim5_bert_never_raises (.error ()) true true).2 rfl,
   (claim5_bert_never_raises (.ok 17) true false).1⟩

/-- C8: the intensity label is derived from the score by the fixed
thresholds — `neutral` below 0.15, `mild` on [0.15, 0.4), `moderate` on
[0.4, 0.7), `strong` on [0.7, 0.9), `intense` at or above 0.9 — and is
empty when the score is absent. -/
theorem claim8_intensity_thresholds (s : ℚ) :
    intensityLabel none = ""
    ∧ (s < 0.15 → intensityLabel (some s) = "neutral")
    ∧ (0.15 ≤ s → s < 0.4 → intensityLabel (some s) = "mild")
    ∧ (0.4 ≤ s → s < 0.7 → intensityLabel (some s) = "moderate")
    ∧ (0.7 ≤ s → s < 0.9 → intensityLabel (some s) = "strong")
    ∧ (0.9 ≤ s → intensityLabel (some s) = "intense") := by
  refine ⟨rfl, ?_, ?_, ?_, ?_, ?_⟩
  · intro h
    simp [intensityLabel, h]
  · intro h1 h2
    simp only [intensityLabel]
    rw [if_neg (not_lt.mpr h1), if_pos h2]
  · intro h1 h2
    simp only [intensityLabel]
    rw [if_neg (not_lt.mpr (by linarith)), if_neg (not_lt.mpr h1), if_pos h2]
  · intro h1 h2
    simp only [intensityLabel]
    rw [if_neg (not_lt.mpr (by linarith)), if_neg (not_lt.mpr (by linarith)),
      if_neg (not_lt.mpr h1), if_pos h2]
  · intro h1
    simp only [intensityLabel]
    rw [if_neg (not_lt.mpr (by linarith)), if_neg (not_lt.mpr (by linarith)),
      if_neg (not_lt.mpr (by linarith)), if_neg (not_lt.mpr h1)]

/-- C8 witness: the score 0.75 lies in [0.7, 0.9) and is labelled
`strong`; an absent score is labelled by the empty string. -/
theorem claim8_intensity_thresholds_witness :
    (0.7 : ℚ) ≤ 3/4 ∧ (3/4 : ℚ) < 0.9
    ∧ intensityLabel (some (3/4)) = "strong" ∧ intensityLabel none = "" :=
  ⟨by norm_num, by norm_num,
   (claim8_intensity_thresholds (3/4)).2.2.2.2.1 (by norm_num) (by norm_num),
   (claim8_intensity_thresholds 0).1⟩

/-! ## Supporting lemmas for the loop theorems -/

/-- With classification on but the cheap path not taken, a run whose
`use_bert` flag is already set classifies every remaining segment with
Adapter B and never consults Adapter A. -/
theorem classifySegments_flag_set
    (A : Nat → String → Except Unit (String × Option ℚ))
    (B : Nat → String → String × Option ℚ) (ext intens : Bool)
    (h : (!ext && !intens) = false) (trs : List String) :
    ∀ i, classifySegments A B true ext intens i true trs = cheapRun B i trs := by
  induction trs with
  | nil => intro i; rfl
  | cons t ts ih =>
    intro i
    simp [classifySegments, stepClassify, h, cheapRun, ih]

/-- With classification on and the cheap path taken, every segment is
classified with Adapter B regardless of the flag. -/
theorem classifySegments_cheap
    (A : Nat → String → Except Unit (String × Option ℚ))
    (B : Nat → String → String × Option ℚ) (ext intens : Bool)
    (h : (!ext && !intens) = true) (trs : List String) :
    ∀ i ub, classifySegments A B true ext intens i ub trs = cheapRun B i trs := by
  induction trs with
  | nil => intro i ub; rfl
  | cons t ts ih =>
    intro i ub
    simp [classifySegments, stepClassify, h, cheapRun, ih]

/-- With classification on and the cheap path not taken, the loop starting
with a clear flag realizes exactly the spec's sticky-fallback policy. -/
theorem classifySegments_sticky
    (A : Nat → String → Except Unit (String × Option ℚ))
    (B : Nat → String → String × Option ℚ) (ext intens : Bool)
    (h : (!ext && !intens) = false) (trs : List String) :
    ∀ i, classifySegments A B true ext intens i false trs = stickyRun A B i trs := by
  induction trs with
  | nil => intro i; rfl
  | cons t ts ih =>
    intro i
    cases hA : A i t with
    | ok r =>
      simp [classifySegments, stepClassify, h, stickyRun, hA, ih]
    | error e =>
      simp [classifySegments, stepClassify, h, stickyRun, hA,
        classifySegments_flag_set A B ext intens h ts]

/-- Every event of a `cheapRun` was produced by Adapter B with Adapter A
not invoked. -/
theorem cheapRun_events (B : Nat → String → String × Option ℚ)
    (trs : List String) :
    ∀ i, ∀ ev ∈ cheapRun B i trs, ev.attemptedA = false ∧ ev.usedB = true := by
  induction trs with
  | nil => intro i ev hev; simp [cheapRun] at hev
  | cons t ts ih =>
    intro i ev hev
    rcases (List.mem_cons).mp hev with h1 | h2
    · subst h1; exact ⟨rfl, rfl⟩
    · exact ih (i + 1) ev h2

/-- The emotion column of the artifact's data rows is exactly the emotion
trace of the classification loop run on the per-segment translations. -/
theorem pipeRows_emotion_column
    (A : Nat → String → Except Unit (String × Option ℚ))
    (B : Nat → String → String × Option ℚ) (trF : String → String)
    (lang : String) (dtr dc ext intens : Bool) (segs : List Segment) :
    ∀ i ub,
      (pipeRows A B trF lang dtr dc ext intens i ub segs).map (fun r => r.getD 4 "")
        = (classifySegments A B dc ext intens i ub
            (segs.map fun seg =>
              if dtr ∧ lang ≠ "en" then trF seg.text else seg.text)).map
            ClassEvent.emo := by
  induction segs with
  | nil => intro i ub; rfl
  | cons seg rest ih =>
    intro i ub
    simp only [pipeRows, classifySegments, List.map_cons]
    rw [ih]
    rfl

/-- Data-row count equals segment count. -/
theorem pipeRows_length
    (A : Nat → String → Except Unit (String × Option ℚ))
    (B : Nat → String → String × Option ℚ) (trF : String → String)
    (lang : String) (dtr dc ext intens : Bool) (segs : List Segment) :
    ∀ i ub, (pipeRows A B trF lang dtr dc ext intens i ub segs).length
      = segs.length := by
  induction segs with
  | nil => intro i ub; rfl
  | cons seg rest ih =>
    intro i ub
    simp only [pipeRows, List.length_cons]
    rw [ih]

/-- The sentence column of the data rows is the segment texts, in order. -/
theorem pipeRows_sentence_column
    (A : Nat → String → Except Unit (String × Option ℚ))
    (B : Nat → String → String × Option ℚ) (trF : String → String)
    (lang : String) (dtr dc ext intens : Bool) (segs : List Segment) :
    ∀ i ub, (pipeRows A B trF lang dtr dc ext intens i ub segs).map
        (fun r => r.getD 2 "")
      = segs.map Segment.text := by
  induction segs with
  | nil => intro i ub; rfl
  | cons seg rest ih =>
    intro i ub
    simp only [pipeRows, List.map_cons]
    rw [ih]
    rfl

/-- C2: with classification enabled, the per-request classifier selection
of `predict_any` is exactly the spec's policy: when neither extended labels
nor intensity are requested every segment is classified by Adapter B and
Adapter A is never invoked (`cheapRun`); otherwise Adapter A classifies
each segment until its first raise, after which the failing segment and
all remaining segments are classified by Adapter B and Adapter A is never
invoked again (`stickyRun`, whose tail is a `cheapRun`).  The third
conjunct ties the loop's emotion trace to the artifact's emotion column. -/
theorem claim2_sticky_fallback
    (A : Nat → String → Except Unit (String × Option ℚ))
    (B : Nat → String → String × Option ℚ) (ext intens : Bool)
    (trs : List String) :
    (classifySegments A B true ext intens 0 false trs =
      if (!ext && !intens) = true then cheapRun B 0 trs else stickyRun A B 0 trs)
    ∧ (∀ ev ∈ cheapRun B 0 trs, ev.attemptedA = false ∧ ev.usedB = true)
    ∧ ∀ (trF : String → String) (lang : String) (dtr : Bool) (segs : List Segment),
        (pipeRows A B trF lang dtr true ext intens 0 false segs).map
            (fun r => r.getD 4 "")
          = (classifySegments A B true ext intens 0 false
              (segs.map fun seg =>
                if dtr ∧ lang ≠ "en" then trF seg.text else seg.text)).map
              ClassEvent.emo := by
  refine ⟨?_, cheapRun_events B trs 0, ?_⟩
  · by_cases h : (!ext && !intens) = true
    · rw [if_pos h]
      exact classifySegments_cheap A B ext intens h trs 0 false
    · rw [if_neg h]
      exact classifySegments_sticky A B ext intens (by revert h; cases (!ext && !intens) <;> simp) trs 0
  · intro trF lang dtr segs
    exact pipeRows_emotion_column A B trF lang dtr true ext intens segs 0 false

/-- C2 witness: with extended labels requested, Adapter A raising on the
first call makes Adapter B classify that segment (stub answer `"sad"`) and
every later segment, with Adapter A never retried. -/
theorem claim2_sticky_fallback_witness :
    classifySegments (fun _ _ => .error ()) (fun _ _ => ("sad", none))
        true true false 0 false ["one", "two"]
      = [⟨true, true, "sad", none⟩, ⟨false, true, "sad", none⟩] := by
  have h := (claim2_sticky_fallback (fun _ _ => .error ())
    (fun _ _ => ("sad", none)) true false ["one", "two"]).1
  rw [h]
  decide

/-- C9: the orchestrator is deterministic over its tabular output — the
same segments, flags, stubs and translator yield the identical artifact —
and order-preserving: one data row per segment, the `i`-th data row
carrying the `i`-th segment's sentence. -/
theorem claim9_artifact_deterministic
    (A : Nat → String → Except Unit (String × Option ℚ))
    (B : Nat → String → String × Option ℚ) (trF : String → String)
    (lang : String) (dtr dc ext intens : Bool) (segs : List Segment) :
    (pipelineRows A B trF lang dtr dc ext intens segs
      = pipelineRows A B trF lang dtr dc ext intens segs)
    ∧ (pipelineRows A B trF lang dtr dc ext intens segs).length = segs.length + 1
    ∧ (pipelineRows A B trF lang dtr dc ext intens segs).tail.map
        (fun r => r.getD 2 "") = segs.map Segment.text := by
  refine ⟨rfl, ?_, ?_⟩
  · simp only [pipelineRows, List.length_cons]
    rw [pipeRows_length A B trF lang dtr dc ext intens segs 0 false]
  · simp only [pipelineRows, List.tail_cons]
    exact pipeRows_sentence_column A B trF lang dtr dc ext intens segs 0 false

/-- C9 witness: a concrete two-segment run — the artifact has three rows
and its sentence column lists the two segment texts in order. -/
theorem claim9_artifact_deterministic_witness :
    (pipelineRows (fun _ _ => .error ()) (fun _ _ => ("joy", none))
        (fun s => s) "en" true true false false
        [⟨0, 0, "Hi."⟩, ⟨0, 0, "Bye."⟩]).length = 3
    ∧ (pipelineRows (fun _ _ => .error ()) (fun _ _ => ("joy", none))
        (fun s => s) "en" true true false false
        [⟨0, 0, "Hi."⟩, ⟨0, 0, "Bye."⟩]).tail.map (fun r => r.getD 2 "")
      = ["Hi.", "Bye."] :=
  ⟨(claim9_artifact_deterministic (fun _ _ => .error ())
      (fun _ _ => ("joy", none)) (fun s => s) "en" true true false false
      [⟨0, 0, "Hi."⟩, ⟨0, 0, "Bye."⟩]).2.1,
   (claim9_artifact_deterministic (fun _ _ => .error ())
      (fun _ _ => ("joy", none)) (fun s => s) "en" true true false false
      [⟨0, 0, "Hi."⟩, ⟨0, 0, "Bye."⟩]).2.2⟩

/-- C10: the classifier preference has no effect on the pipeline's
observable result.  First conjunct: `predict_any`'s output — artifact rows
and summary — is identical under any two `classifier_model` arguments
(the argument is only logged, never branched on).  Second conjunct,
end to end: two client payloads differing only in their `classifier`
field produce identical `enforce`-then-`predict_any` outcomes. -/
theorem claim10_classifier_preference_no_effect
    (inp content : String) (isCsv : Bool) (model : String)
    (dtr dc ext intens : Bool) (cm1 cm2 : String)
    (A : Nat → String → Except Unit (String × Option ℚ))
    (B : Nat → String → String × Option ℚ)
    (trF detectF : String → String) (dir now : String)
    (p : Payload) (plan : Plan) (c1 c2 : Option String) :
    (predict_any_model inp content isCsv model dtr dc ext intens cm1
        A B trF detectF dir now
      = predict_any_model inp content isCsv model dtr dc ext intens cm2
        A B trF detectF dir now)
    ∧ ((enforce { p with classifier := c1 } plan).map fun np =>
        predict_any_model np.inp content isCsv np.model np.do_translate
          np.do_classify np.do_classify_ext np.do_intensity
          np.classifier_model A B trF detectF dir now)
      = ((enforce { p with classifier := c2 } plan).map fun np =>
        predict_any_model np.inp content isCsv np.model np.do_translate
          np.do_classify np.do_classify_ext np.do_intensity
          np.classifier_model A B trF detectF dir now) := by
  refine ⟨rfl, ?_⟩
  rcases h : p.duration_sec with _ | d
  · simp [enforce, h]
    rfl
  · by_cases hd : d > (RULES plan).max_seconds
    · simp [enforce, h, hd]
    · simp [enforce, h, hd]
      rfl

/-- C10 witness: concrete `"bert"` versus `"llama"` preferences yield the
same artifact and summary. -/
theorem claim10_classifier_preference_no_effect_witness :
    predict_any_model "input.csv" "Text\nHi" true "tiny" true true false false
        "bert" (fun _ _ => .error ()) (fun _ _ => ("joy", none))
        (fun s => s) (fun _ => "en") "data/transcripts" "T0"
      = predict_any_model "input.csv" "Text\nHi" true "tiny" true true false false
        "llama" (fun _ _ => .error ()) (fun _ _ => ("joy", none))
        (fun s => s) (fun _ => "en") "data/transcripts" "T0" :=
  (claim10_classifier_preference_no_effect "input.csv" "Text\nHi" true "tiny"
    true true false false "bert" "llama" (fun _ _ => .error ())
    (fun _ _ => ("joy", none)) (fun s => s) (fun _ => "en") "data/transcripts"
    "T0" ⟨"x", none, none, none, none, none, none⟩ Plan.basic none none).1

/-- C7 counterexample: for the URL `https://youtube.com/watch?v=a.b` the
stem is the `v` parameter value `a.b` returned without sanitization, and
`.` is outside `[0-9A-Za-z_-]` — the claim's "in every case the resulting
stem contains no character outside `[0-9A-Za-z_-]`" fails. -/
theorem claim7_v_param_unsanitized_counterexample :
    _make_safe_stem "https://youtube.com/watch?v=a.b" = "a.b"
    ∧ '.' ∈ "a.b".toList
    ∧ stemAllowedChar '.' = false := by
  refine ⟨by decide, by decide, by decide⟩

/-- C7 as amended: the stem is the URL's `v` parameter value (as parsed,
unsanitized) for an `http(s)` URL carrying one; otherwise it is the path
stem (of the URL path, or of the input) sanitized with every character
outside `[0-9A-Za-z_-]` replaced by `_` and the empty result replaced by
the placeholder `input` — so outside the `v`-parameter case the stem is
non-empty and contains only `[0-9A-Za-z_-]` characters. -/
theorem claim7_stem_sanitization_amended (inp : String) :
    (isHttpUrl inp = true → ∀ v, parseQsV (urlQuery inp) = some v →
      _make_safe_stem inp = v)
    ∧ (isHttpUrl inp = true → parseQsV (urlQuery inp) = none →
      _make_safe_stem inp = sanitizeOrInput (pathStem (urlPath inp)))
    ∧ (isHttpUrl inp = false → _make_safe_stem inp = sanitizeOrInput (pathStem inp))
    ∧ (∀ s c, c ∈ (sanitizeOrInput s).toList → stemAllowedChar c = true)
    ∧ (∀ s, sanitizeOrInput s ≠ "")
    ∧ ((isHttpUrl inp = false ∨ parseQsV (urlQuery inp) = none) →
      ∀ c, c ∈ (_make_safe_stem inp).toList → stemAllowedChar c = true) := by
  have hchars : ∀ s c, c ∈ (sanitizeOrInput s).toList → stemAllowedChar c = true := by
    intro s c hc
    unfold sanitizeOrInput at hc
    by_cases he : sanitizeStem s = ""
    · rw [if_pos he] at hc
      fin_cases hc <;> decide
    · rw [if_neg he] at hc
      unfold sanitizeStem at hc
      rcases List.mem_map.mp hc with ⟨a, _, ha⟩
      by_cases hall : stemAllowedChar a = true
      · rw [if_pos hall] at ha
        rw [ha] at hall
        exact hall
      · rw [if_neg hall] at ha
        rw [← ha]
        decide
  refine ⟨?_, ?_, ?_, hchars, ?_, ?_⟩
  · intro hurl v hv
    unfold _make_safe_stem
    rw [if_pos hurl, hv]
  · intro hurl hv
    unfold _make_safe_stem
    rw [if_pos hurl, hv]
  · intro hurl
    unfold _make_safe_stem
    rw [if_neg (by simp [hurl])]
  · intro s
    unfold sanitizeOrInput
    by_cases he : sanitizeStem s = ""
    · rw [if_pos he]
      decide
    · rw [if_neg he]
      exact he
  · intro hcase c hc
    rcases hcase with hurl | hv
    · unfold _make_safe_stem at hc
      rw [if_neg (by simp [hurl])] at hc
      exact hchars _ c hc
    · unfold _make_safe_stem at hc
      by_cases hurl : isHttpUrl inp = true
      · rw [if_pos hurl, hv] at hc
        exact hchars _ c hc
      · rw [if_neg (by simp at hurl; simp [hurl])] at hc
        exact hchars _ c hc

/-- C7 witness: the docstring example — a path with spaces and a bang —
stems and sanitizes to `my_file_`, inside the allowed alphabet. -/
theorem claim7_stem_sanitization_amended_witness :
    _make_safe_stem "/path/to/my file!.mp3" = "my_file_"
    ∧ _make_safe_stem "https://youtube.com/watch?v=dQw4w9WgXcQ" = "dQw4w9WgXcQ" := by
  constructor
  · rw [(claim7_stem_sanitization_amended "/path/to/my file!.mp3").2.2.1 (by decide)]
    decide
  · rw [(claim7_stem_sanitization_amended "https://youtube.com/watch?v=dQw4w9WgXcQ").1
      (by decide) "dQw4w9WgXcQ" (by decide)]

/-! ## Supporting lemmas for the text-segmentation theorems -/

/-- The head surviving a `dropWhile` does not satisfy the predicate. -/
theorem head?_dropWhile_false (p : Char → Bool) (l : List Char) :
    ∀ c, (l.dropWhile p).head? = some c → p c = false := by
  induction l with
  | nil => intro c hc; simp [List.dropWhile] at hc
  | cons a rest ih =>
    intro c hc
    by_cases ha : p a = true
    · rw [List.dropWhile_cons_of_pos ha] at hc
      exact ih c hc
    · rw [List.dropWhile_cons_of_neg ha] at hc
      simp at hc
      rw [← hc]
      exact Bool.of_not_eq_true ha

/-- A stripped string never ends in whitespace. -/
theorem pyStrip_getLast_not_space (s : String) :
    ∀ c, (pyStrip s).toList.getLast? = some c → pyIsSpace c = false := by
  intro c hc
  unfold pyStrip at hc
  rw [show (String.mk ((((s.toList.dropWhile pyIsSpace).reverse.dropWhile
      pyIsSpace)).reverse)).toList = (((s.toList.dropWhile pyIsSpace).reverse.dropWhile
      pyIsSpace)).reverse from rfl, List.getLast?_reverse] at hc
  exact head?_dropWhile_false pyIsSpace _ c hc

/-- If a string does not end in whitespace, its punctuation-forced version
ends in `.`, `!`, or `?`. -/
theorem forceTerminal_getLast (s : String)
    (h : ∀ c, s.toList.getLast? = some c → pyIsSpace c = false) :
    ∃ c, (forceTerminal s).toList.getLast? = some c
      ∧ (c = '.' ∨ c = '!' ∨ c = '?') := by
  unfold forceTerminal
  by_cases he : endsTerminal s = true
  · rw [if_pos he]
    unfold endsTerminal at he
    rcases hr : s.toList.reverse with _ | ⟨c, rest⟩
    · rw [hr] at he
      simp [endsTerminalRev] at he
    · rw [hr] at he
      have hlast : s.toList.getLast? = some c := by
        rw [← List.head?_reverse, hr]
        rfl
      have hsp := h c hlast
      refine ⟨c, hlast, ?_⟩
      simp only [endsTerminalRev, termChar, Bool.or_eq_true, Bool.and_eq_true,
        decide_eq_true_eq] at he
      rcases he with ((h | h) | h) | ⟨hn, _⟩
      · exact Or.inl h
      · exact Or.inr (Or.inl h)
      · exact Or.inr (Or.inr h)
      · exfalso
        rw [hn] at hsp
        simp [pyIsSpace] at hsp
  · rw [if_neg he]
    refine ⟨'.', ?_, Or.inl rfl⟩
    rw [show (s ++ ".").toList = s.toList ++ ['.'] from String.data_append s "."]
    simp

/-- Every `.txt` sentence is a stripped string. -/
theorem txtSentences_strip (raw : String) :
    ∀ u ∈ txtSentences raw, ∃ w, u = pyStrip w := by
  intro u hu
  unfold txtSentences at hu
  rcases List.mem_filterMap.mp hu with ⟨a, _, ha⟩
  by_cases he : pyStrip a = ""
  · simp [he] at ha
  · rw [if_neg he] at ha
    exact ⟨a, (Option.some_inj.mp ha).symm⟩

/-- Every `.csv` sentence is a stripped string. -/
theorem csvSentences_strip (content : String) :
    ∀ u ∈ csvSentences content, ∃ w, u = pyStrip w := by
  intro u hu
  unfold csvSentences at hu
  rcases hp : csvParse content with _ | ⟨hd, rest⟩
  · rw [hp] at hu
    simp at hu
  · rw [hp] at hu
    rcases List.mem_filterMap.mp hu with ⟨row, _, hrow⟩
    rcases row with _ | ⟨c0, rowrest⟩
    · simp at hrow
    · by_cases he : pyStrip c0 = ""
      · simp [he] at hrow
      · simp only [if_neg he] at hrow
        exact ⟨c0, (Option.some_inj.mp hrow).symm⟩

/-- Reduction of the `timedelta` microsecond value at zero seconds. -/
theorem ratMicros_zero : ratMicros 0 = 0 := by
  have h : (0 : ℚ) * 1000000 + 1/2 = Rat.divInt 1 2 := by
    norm_num [Rat.divInt_eq_div]
  unfold ratMicros
  rw [h]
  decide

/-- The zero timestamp formats as `00:00:00,000`. -/
theorem fmt_zero : _fmt 0 = "00:00:00,000" := by
  unfold _fmt
  rw [ratMicros_zero]
  decide

/-- C6 counterexample: a `.csv` file whose only line is `Hello` (consumed
as the header) yields no sentences but non-empty raw content; the fallback
segment holds `"Hello."` — the trimmed raw content with a period appended
by the terminal-punctuation pass — not the trimmed raw content `"Hello"`
itself, as the claim's fallback clause states. -/
theorem claim6_fallback_punctuated_counterexample :
    (buildTextSegments true "Hello").map Segment.text = ["Hello."]
    ∧ pyStrip "Hello" = "Hello"
    ∧ csvSentences "Hello" = []
    ∧ "Hello." ≠ "Hello" := by
  refine ⟨by decide, by decide, by decide, by decide⟩

/-- C6 as amended: one segment per non-empty line (for `.csv`, the first
column of each row after the header), a truly empty file yielding no
segments; every produced segment — the raw-content fallback segment
included — ends in terminal punctuation, the fallback segment holding the
trimmed raw content with the punctuation pass applied to it; and the
concrete `.csv` scenario produces exactly the claimed three-row artifact. -/
theorem claim6_text_segmentation_amended :
    (∀ b : Bool, buildTextSegments b "" = [])
    ∧ (∀ (b : Bool) (content : String) (seg : Segment),
        seg ∈ buildTextSegments b content →
        ∃ c, seg.text.toList.getLast? = some c
          ∧ (c = '.' ∨ c = '!' ∨ c = '?'))
    ∧ (∀ (b : Bool) (content : String),
        (if b = true then csvSentences content else txtSentences (pyStrip content)) = [] →
        pyStrip content ≠ "" →
        buildTextSegments b content = [⟨0, 0, forceTerminal (pyStrip content)⟩])
    ∧ (predict_any_model "input.csv" "Text\nHello world\nGoodbye" true "tiny"
        true true false false "bert" (fun _ _ => .error ())
        (fun _ _ => ("joy", none)) (fun s => s) (fun _ => "en")
        "data/transcripts" "T0").2
      = [["start", "end", "sentence", "translation", "emotion"],
         ["00:00:00,000", "00:00:00,000", "Hello world.", "Hello world.", "joy"],
         ["00:00:00,000", "00:00:00,000", "Goodbye.", "Goodbye.", "joy"]] := by
  refine ⟨?_, ?_, ?_, ?_⟩
  · intro b
    cases b <;> decide
  · intro b content seg hseg
    simp only [buildTextSegments] at hseg
    rcases List.mem_map.mp hseg with ⟨t, ht, hts⟩
    rcases List.mem_map.mp ht with ⟨u, hu, hut⟩
    have hstrip : ∀ c, u.toList.getLast? = some c → pyIsSpace c = false := by
      by_cases hfb : (if b = true then csvSentences content
          else txtSentences (pyStrip content)) = [] ∧ pyStrip content ≠ ""
      · rw [if_pos hfb] at hu
        simp at hu
        rw [hu]
        exact pyStrip_getLast_not_space content
      · rw [if_neg hfb] at hu
        have hex : ∃ w, u = pyStrip w := by
          cases b
          · simp only [Bool.false_eq_true, if_false] at hu
            exact txtSentences_strip (pyStrip content) u hu
          · simp only [if_true] at hu
            exact csvSentences_strip content u hu
        rcases hex with ⟨w, hw⟩
        rw [hw]
        exact pyStrip_getLast_not_space w
    have htext : seg.text = forceTerminal u := by
      rw [← hts, ← hut]
    rw [htext]
    exact forceTerminal_getLast u hstrip
  · intro b content h1 h2
    simp only [buildTextSegments]
    rw [h1, if_pos ⟨rfl, h2⟩]
    rfl
  · have hsegs : buildTextSegments true "Text\nHello world\nGoodbye"
        = [⟨0, 0, "Hello world."⟩, ⟨0, 0, "Goodbye."⟩] := by decide
    simp only [predict_any_model, pipelineRows, hsegs, headersFor, pipeRows,
      stepClassify, fmt_zero]
    decide

/-- C6 witness: the header-only `.csv` file exercises the fallback clause
of the amended claim. -/
theorem claim6_text_segmentation_amended_witness :
    buildTextSegments true "Hello" = [⟨0, 0, forceTerminal (pyStrip "Hello")⟩] :=
  claim6_text_segmentation_amended.2.2.1 true "Hello" (by decide) (by decide)
